import Mathlib

/-!
Verification development for the exploration orchestration engine of the
potential-minigrid-explorer repository.  The definitions below are shallow
embeddings of the Python source:

* `src/app/explorations/domain.py` — entities, the four workers and the
  orchestrator `worker_exploration`;
* `src/app/explorations/api.py` — `start_new_exploration` and
  `get_exploration_progress`;
* `src/app/service_offgrid_planner/service.py` — the optimizer gateway
  `_send_input_to_optimizer` / `retry_request`.

Opaque payloads (JSON bodies, poll-handle ids, record ids) are modelled as
`Nat` tokens; the control flow, field updates and counters follow the source
line by line.
-/

/-- Embeds `ExplorationStatus` (domain.py). -/
inductive ExplorationStatus
  | RUNNING
  | FINISHED
  | ERROR
  | STOPPED
deriving DecidableEq, Repr

/-- Embeds `SimulationStatus` (domain.py). -/
inductive SimulationStatus
  | PENDING
  | RUNNING
  | FINISHED
  | STOPPED
  | ERROR
  | PROCESSED_ERROR
  | PROCESSED
deriving DecidableEq, Repr

/-- Embeds `ErrorServiceOffgridPlanner` (service.py). -/
inductive ErrorServiceOffgridPlanner
  | service_unavailable
  | request_failed
deriving DecidableEq, Repr

/-- One network attempt's outcome as seen by `retry_request` (service.py):
either the HTTP call raises a transport timeout, or it returns a response
with a status code, a flag telling whether its body decodes as JSON, and the
(opaque) task id carried by the body. -/
inductive NetOutcome
  | timeout
  | response (statusCode : Nat) (jsonDecodable : Bool) (taskId : Nat)
deriving DecidableEq, Repr

/-- Result of `_send_input_to_optimizer` (service.py): a gateway error, a
poll-handle (the `checker` closure, identified by the task id it polls), or
an uncaught exception after the transport retries are exhausted. -/
inductive SubmitOutcome
  | gatewayError (e : ErrorServiceOffgridPlanner)
  | checker (taskId : Nat)
  | raisedTimeout
deriving DecidableEq, Repr

/-- Embeds `retry_request` (service.py, lines 64-77): performs network calls
until one returns a response or `max_attempts` calls have all timed out (the
last timeout re-raises).  First argument is the remaining attempt budget,
second the environment's outcome for each successive call.  Returns the
first response reached (if any) together with the number of network calls
made. -/
def retry_request : Nat → List NetOutcome → Option (Nat × Bool × Nat) × Nat
  | 0, _ => (none, 0)
  | _ + 1, [] => (none, 0)
  | n + 1, NetOutcome.timeout :: rest =>
      if n = 0 then (none, 1)
      else
        let r := retry_request n rest
        (r.1, r.2 + 1)
  | _ + 1, NetOutcome.response sc d t :: _ => (some (sc, d, t), 1)

/-- Embeds `_send_input_to_optimizer` (service.py, lines 46-130) up to the
construction of the `checker` closure: transport timeouts are retried by
`retry_request` (at most 5 calls); the first actual response is inspected
once — a non-200 status code yields `request_failed` immediately and a body
that fails JSON decoding yields `service_unavailable` immediately, neither
being retried.  Returns the outcome and the total number of network calls. -/
def send_input_to_optimizer (outcomes : List NetOutcome) : SubmitOutcome × Nat :=
  match retry_request 5 outcomes with
  | (none, c) => (SubmitOutcome.raisedTimeout, c)
  | (some (sc, d, t), c) =>
    if sc ≠ 200 then (SubmitOutcome.gatewayError ErrorServiceOffgridPlanner.request_failed, c)
    else if d = false then
      (SubmitOutcome.gatewayError ErrorServiceOffgridPlanner.service_unavailable, c)
    else (SubmitOutcome.checker t, c)

/-- Outcome of calling a `checker` poll closure (service.py `checker`,
domain.py poll sites): still pending, done with a decoded result payload, or
an `ErrorServiceOffgridPlanner` (service failure or external ERROR status). -/
inductive PollResult
  | pending
  | done (results : Nat)
  | error
deriving DecidableEq, Repr

/-- The fields of a `Simulation` row touched by the scheduler's polling code
(domain.py `WorkerRunOptimizer.__call__`, lines 435-514). -/
structure SimRecord where
  status : SimulationStatus
  grid_results : Option Nat
  supply_results : Option Nat
deriving DecidableEq, Repr

/-- Result of one visit to an occupied slot: the updated simulation row,
whether each poll handle is still present, and whether the slot was emptied
(which is when `executed_simulations` is incremented). -/
structure SlotVisit where
  sim : SimRecord
  hasGrid : Bool
  hasSupply : Bool
  emptied : Bool
deriving DecidableEq, Repr

/-- Embeds one pass of the occupied-slot branch of the scheduler loop
(domain.py lines 435-514).  `hasGrid` / `hasSupply` say whether
`checker_grid` / `checker_supply` are still present in the slot;
`gridPoll` / `supplyPoll` are what those checkers return when called.  The
grid handle is polled first, then the supply handle; on `error` the
simulation is marked ERROR and that handle (only) is cleared; on `done` the
corresponding result field is written and that handle is cleared; when both
handles end up cleared the slot is emptied and the status is promoted to
FINISHED only if it is still RUNNING. -/
def pollOccupiedSlot (sim : SimRecord) (hasGrid hasSupply : Bool)
    (gridPoll supplyPoll : PollResult) : SlotVisit :=
  let stepGrid : SimRecord × Bool :=
    if hasGrid then
      match gridPoll with
      | PollResult.error => ({ sim with status := SimulationStatus.ERROR }, false)
      | PollResult.done r => ({ sim with grid_results := some r }, false)
      | PollResult.pending => (sim, true)
    else (sim, false)
  let stepSupply : SimRecord × Bool :=
    if hasSupply then
      match supplyPoll with
      | PollResult.error => ({ stepGrid.1 with status := SimulationStatus.ERROR }, false)
      | PollResult.done r => ({ stepGrid.1 with supply_results := some r }, false)
      | PollResult.pending => (stepGrid.1, true)
    else (stepGrid.1, false)
  if stepGrid.2 = false ∧ stepSupply.2 = false then
    { sim :=
        { stepSupply.1 with
          status :=
            if stepSupply.1.status = SimulationStatus.RUNNING then SimulationStatus.FINISHED
            else stepSupply.1.status }
      hasGrid := false
      hasSupply := false
      emptied := true }
  else
    { sim := stepSupply.1, hasGrid := stepGrid.2, hasSupply := stepSupply.2, emptied := false }

/-- Embeds `NUM_SLOTS` (domain.py line 312). -/
def NUM_SLOTS : Nat := 3

/-- One entry of the scheduler's `slots` array (domain.py lines 313-319): an
optional simulation id together with the presence of the grid and supply
poll handles.  An empty slot is `⟨none, false, false⟩`. -/
structure Slot where
  minigrid_id : Option Nat
  hasGrid : Bool
  hasSupply : Bool
deriving DecidableEq, Repr

/-- An empty scheduler slot, `(None, None, None)` in the source. -/
def emptySlot : Slot := ⟨none, false, false⟩

/-- Embeds the slot-filling loops of the scheduler (domain.py lines 339-372
for the startup fill and 527-556 for the bulk refill): walking a list of
simulations fetched from the PENDING pool (each paired with whether both of
its gateway submits succeed), the `i`-th fetched simulation either fills
slot `i` with both handles (submits succeeded, row set RUNNING) or is marked
ERROR and `executed_simulations` is incremented (a submit failed).  Returns
the updated slot array and executed count. -/
def fillLoop : List Slot → List (Nat × Bool) → Nat → Nat → List Slot × Nat
  | slots, [], _, executed => (slots, executed)
  | slots, (simId, true) :: rest, i, executed =>
    fillLoop (slots.set i ⟨some simId, true, true⟩) rest (i + 1) executed
  | slots, (_, false) :: rest, i, executed => fillLoop slots rest (i + 1) (executed + 1)

/-- Embeds the opportunistic single-slot refill (domain.py lines 400-433):
fills exactly slot `i` with a fetched simulation whose two submits
succeeded. -/
def refillOneSlot (slots : List Slot) (i : Nat) (simId : Nat) : List Slot :=
  slots.set i ⟨some simId, true, true⟩

/-- Embeds the bulk refill performed when all slots are simultaneously empty
(domain.py lines 516-559): refill up to `min NUM_SLOTS (total - executed)`
slots from the PENDING pool, then set `last_bucket` when
`minigrids_found - executed_simulations ≤ NUM_SLOTS` (the flag is never
reset once set).  `total` is `Exploration.minigrids_found`.  Returns the
slot array, the executed count and the `last_bucket` flag. -/
def bulkRefill (slots : List Slot) (executed total : Nat)
    (fetched : List (Nat × Bool)) (last_bucket : Bool) : List Slot × Nat × Bool :=
  let filled := fillLoop slots fetched 0 executed
  (filled.1, filled.2, if total - filled.2 ≤ NUM_SLOTS then true else last_bucket)

/-- Number of slots currently holding a simulation with at least one
unresolved poll handle. -/
def runningWithHandles (slots : List Slot) : Nat :=
  slots.countP (fun s => s.minigrid_id.isSome && (s.hasGrid || s.hasSupply))

/-- Embeds the final status computation of the orchestrator
(domain.py lines 725-734): FINISHED unless every simulation of the
exploration has status PROCESSED_ERROR, in which case ERROR. -/
def finalStatus (sims : List SimulationStatus) : ExplorationStatus :=
  if sims.all (fun s => s = SimulationStatus.PROCESSED_ERROR) then ExplorationStatus.ERROR
  else ExplorationStatus.FINISHED

/-- Embeds the orchestrator's final write (domain.py lines 724-736) as a
function of the exploration's status at join time and of its simulations'
final statuses: the source writes `finalStatus sims` unconditionally, making
no use of the current status. -/
def worker_exploration_final (current : ExplorationStatus)
    (sims : List SimulationStatus) : ExplorationStatus :=
  finalStatus sims

/-- The writes `worker_exploration` (domain.py lines 676-736) performs on
the Exploration row after the clustering phase succeeds: three timestamp
writes, each after the corresponding join, and one status write after the
last join. -/
inductive ExplWrite
  | clustersFoundAt
  | inputsGeneratedAt
  | finishedAt
  | statusWrite (v : ExplorationStatus)
deriving DecidableEq, Repr

/-- Whether an orchestrator write touches the `status` field. -/
def isStatusWrite : ExplWrite → Bool
  | ExplWrite.statusWrite _ => true
  | _ => false

/-- Embeds the sequence of Exploration-row writes made by
`worker_exploration` on a run of the pipeline that reaches the end of the
function, in source order: `clusters_found_at` (line 695), then
`optimizer_inputs_generated_at` after `thread_inputs.join()` (line 715),
then `optimizer_finished_at` after `thread_optimizer.join()` (line 720),
then — after `thread_results.join()` — the single status write
(lines 725-736). -/
def worker_exploration_writes (sims : List SimulationStatus) : List ExplWrite :=
  [ExplWrite.clustersFoundAt, ExplWrite.inputsGeneratedAt, ExplWrite.finishedAt,
    ExplWrite.statusWrite (finalStatus sims)]

/-- An Exploration row as far as the start/stop/finalize operations are
concerned. -/
structure ExplorationRec where
  id : Nat
  status : ExplorationStatus
deriving DecidableEq, Repr

/-- A Simulation row as far as the uniqueness constraint
`uc_exploration_id_cluster_id` (domain.py lines 120-124) is concerned. -/
structure SimRow where
  exploration_id : Nat
  cluster_id : Nat
deriving DecidableEq, Repr

/-- The persistent store: the `exploration`, `cluster` and `simulation`
tables (cluster rows carry no exploration foreign key in the source, so a
cluster is just its id here). -/
structure Store where
  explorations : List ExplorationRec
  clusters : List Nat
  simulations : List SimRow
deriving DecidableEq, Repr

/-- Outcome of the `POST /explorations/` handler. -/
inductive StartResult
  | conflict
  | started (id : Nat)
deriving DecidableEq, Repr

/-- Embeds `start_new_exploration` (api.py lines 246-274) combined with
`start_exploration` (domain.py lines 747-765): if some exploration is
RUNNING, answer 409 Conflict and change nothing; otherwise delete every
Cluster row and every Simulation row (api.py lines 262-264), then create a
new Exploration with status RUNNING. -/
def start_new_exploration (db : Store) (newId : Nat) : Store × StartResult :=
  if db.explorations.any (fun e => e.status = ExplorationStatus.RUNNING) then
    (db, StartResult.conflict)
  else
    ({ explorations := db.explorations ++ [⟨newId, ExplorationStatus.RUNNING⟩],
       clusters := [], simulations := [] },
     StartResult.started newId)

/-- Updates the status of the exploration with the given id (helper for the
stop and finalize operations, which both go through a store write). -/
def setExplorationStatus (db : Store) (i : Nat) (v : ExplorationStatus) : Store :=
  { db with
    explorations := db.explorations.map (fun e => if e.id = i then { e with status := v } else e) }

/-- The operations that write `Exploration.status`:
a start call (api.py lines 246-274), a stop request (api.py lines 407-427,
which sets STOPPED on a RUNNING exploration), and the orchestrator's final
write (domain.py lines 724-736). -/
inductive ExplorationOp
  | start (newId : Nat)
  | stop (i : Nat)
  | finalize (i : Nat) (sims : List SimulationStatus)

/-- Applies one operation to the store. -/
def applyExplorationOp (db : Store) : ExplorationOp → Store
  | ExplorationOp.start n => (start_new_exploration db n).1
  | ExplorationOp.stop i => setExplorationStatus db i ExplorationStatus.STOPPED
  | ExplorationOp.finalize i sims => setExplorationStatus db i (finalStatus sims)

/-- Applies a sequence of operations, oldest first. -/
def runExplorationOps (db : Store) (ops : List ExplorationOp) : Store :=
  ops.foldl applyExplorationOp db

/-- Number of explorations currently RUNNING. -/
def countRunning (db : Store) : Nat :=
  db.explorations.countP (fun e => e.status = ExplorationStatus.RUNNING)

/-- The empty store. -/
def emptyStore : Store := ⟨[], [], []⟩

/-- Embeds the persistence error raised when the uniqueness constraint
`uc_exploration_id_cluster_id` is violated. -/
inductive PersistenceError
  | uniqueConstraintViolation
deriving DecidableEq, Repr

/-- Embeds the create-Simulation store operation under the table constraint
`uc_exploration_id_cluster_id` (domain.py lines 120-124): inserting a row
whose (exploration_id, cluster_id) pair is already present fails. -/
def createSimulation (sims : List SimRow) (row : SimRow) :
    Except PersistenceError (List SimRow) :=
  if sims.any (fun t => t.exploration_id = row.exploration_id ∧ t.cluster_id = row.cluster_id)
  then Except.error PersistenceError.uniqueConstraintViolation
  else Except.ok (sims ++ [row])

/-- Runs a sequence of create-Simulation calls, keeping the previous table
contents whenever a create fails with a constraint violation. -/
def runCreateSimulations (sims : List SimRow) (rows : List SimRow) : List SimRow :=
  rows.foldl
    (fun acc r =>
      match createSimulation acc r with
      | Except.ok l => l
      | Except.error _ => acc)
    sims

/-- Embeds the body of the counting loop of `get_exploration_progress`
(api.py lines 338-345): PROCESSED increments `num_calculated`, ERROR or
STOPPED increments `num_aborted`, anything else (including PROCESSED_ERROR)
increments neither. -/
def progressStep (acc : Nat × Nat) (s : SimulationStatus) : Nat × Nat :=
  if s = SimulationStatus.PROCESSED then (acc.1 + 1, acc.2)
  else if s = SimulationStatus.ERROR ∨ s = SimulationStatus.STOPPED then (acc.1, acc.2 + 1)
  else acc

/-- Embeds the counting loop of `get_exploration_progress` (api.py lines
336-345): the first component is `num_calculated`, the second
`num_aborted`; `minigrids_analyzed` is their sum (api.py line 370). -/
def progressCounts (sims : List SimulationStatus) : Nat × Nat :=
  sims.foldl progressStep (0, 0)

/-! ## Helper definitions and lemmas for the claims -/

/-- A simulation status counted by `num_calculated` (api.py line 339). -/
def isCalculated : SimulationStatus → Bool
  | SimulationStatus.PROCESSED => true
  | _ => false

/-- A simulation status counted by `num_aborted` (api.py lines 341-344). -/
def isAborted : SimulationStatus → Bool
  | SimulationStatus.ERROR => true
  | SimulationStatus.STOPPED => true
  | _ => false

/-- A simulation status counted by `minigrids_analyzed` (api.py line 370),
i.e. by either of the two counters. -/
def isAnalyzed (s : SimulationStatus) : Bool := isCalculated s || isAborted s

lemma progressCounts_foldl (sims : List SimulationStatus) (a b : Nat) :
    sims.foldl progressStep (a, b) =
      (a + sims.countP isCalculated, b + sims.countP isAborted) := by
  induction sims generalizing a b with
  | nil => simp
  | cons s rest ih =>
    cases s <;> simp [progressStep, isCalculated, isAborted, List.countP_cons, ih] <;> omega

lemma progressCounts_eq (sims : List SimulationStatus) :
    progressCounts sims = (sims.countP isCalculated, sims.countP isAborted) := by
  have h := progressCounts_foldl sims 0 0
  simpa [progressCounts] using h

lemma countP_analyzed (sims : List SimulationStatus) :
    sims.countP isCalculated + sims.countP isAborted = sims.countP isAnalyzed := by
  induction sims with
  | nil => simp
  | cons s rest ih =>
    cases s <;> simp [isCalculated, isAborted, isAnalyzed, List.countP_cons, ih] <;> omega

/-! ## Claims -/

/-- Claim C10: in `get_exploration_progress`, a PROCESSED simulation is
counted toward `minigrids_calculated`, an ERROR or STOPPED one toward
`minigrids_aborted`, and a PROCESSED_ERROR one in neither; consequently
`minigrids_analyzed` (the sum) counts exactly the simulations whose status
is PROCESSED, ERROR or STOPPED and excludes every PROCESSED_ERROR one. -/
theorem progress_counts_exclude_processed_error (sims : List SimulationStatus) :
    (progressCounts sims).1 = sims.countP isCalculated ∧
    (progressCounts sims).2 = sims.countP isAborted ∧
    (progressCounts sims).1 + (progressCounts sims).2 = sims.countP isAnalyzed ∧
    isAnalyzed SimulationStatus.PROCESSED_ERROR = false ∧
    progressCounts (sims ++ [SimulationStatus.PROCESSED_ERROR]) = progressCounts sims := by
  refine ⟨by simp [progressCounts_eq], by simp [progressCounts_eq], ?_, rfl, ?_⟩
  · simp [progressCounts_eq, countP_analyzed]
  · simp [progressCounts, List.foldl_append, progressStep]

/-- Claim C1: on a pipeline run that reaches the end of
`worker_exploration`, the orchestrator writes the Exploration status exactly
once, as the last of its writes (after all workers join), and the value
written is ERROR exactly when every simulation of the exploration ended
PROCESSED_ERROR, FINISHED otherwise. -/
theorem orchestrator_final_status (sims : List SimulationStatus) :
    (worker_exploration_writes sims).countP isStatusWrite = 1 ∧
    (worker_exploration_writes sims).getLast? =
      some (ExplWrite.statusWrite (finalStatus sims)) ∧
    (finalStatus sims = ExplorationStatus.ERROR ↔
      ∀ s ∈ sims, s = SimulationStatus.PROCESSED_ERROR) ∧
    (finalStatus sims = ExplorationStatus.ERROR ∨
      finalStatus sims = ExplorationStatus.FINISHED) := by
  refine ⟨rfl, rfl, ?_, ?_⟩
  · unfold finalStatus
    split
    · next h => simpa [List.all_eq_true] using h
    · next h =>
      simp only [List.all_eq_true, decide_eq_true_eq] at h
      simp [h]
  · unfold finalStatus
    split <;> simp

/-- Claim C1 witness. -/
theorem orchestrator_final_status_witness :
    finalStatus [SimulationStatus.PROCESSED_ERROR] = ExplorationStatus.ERROR :=
  (orchestrator_final_status [SimulationStatus.PROCESSED_ERROR]).2.2.1.mpr (by decide)

/-- Claim C2 (code bug exhibit): the orchestrator's final write ignores the
exploration's current status, so a STOPPED exploration whose workers have
all joined is overwritten — the final status is always FINISHED or ERROR,
never left STOPPED. -/
theorem stopped_overwritten_by_final_write :
    worker_exploration_final ExplorationStatus.STOPPED
        [SimulationStatus.PENDING, SimulationStatus.RUNNING] =
      ExplorationStatus.FINISHED ∧
    ∀ sims : List SimulationStatus,
      worker_exploration_final ExplorationStatus.STOPPED sims = ExplorationStatus.FINISHED ∨
      worker_exploration_final ExplorationStatus.STOPPED sims = ExplorationStatus.ERROR := by
  refine ⟨rfl, ?_⟩
  intro sims
  unfold worker_exploration_final finalStatus
  split <;> simp

/-- The (exploration_id, cluster_id) key of a simulation row. -/
def simKey (t : SimRow) : Nat × Nat := (t.exploration_id, t.cluster_id)

lemma createSimulation_ok_nodup (sims : List SimRow) (row : SimRow)
    (h : (sims.map simKey).Nodup) (res : List SimRow)
    (hok : createSimulation sims row = Except.ok res) : (res.map simKey).Nodup := by
  unfold createSimulation at hok
  split at hok
  · exact absurd hok (by simp)
  · next hany =>
    cases hok
    have hnot : (row.exploration_id, row.cluster_id) ∉ sims.map simKey := by
      intro hmem
      rcases List.mem_map.mp hmem with ⟨t, ht, hkey⟩
      have h1 : t.exploration_id = row.exploration_id := congrArg Prod.fst hkey
      have h2 : t.cluster_id = row.cluster_id := congrArg Prod.snd hkey
      exact hany (by simp [List.any_eq_true]; exact ⟨t, ht, h1, h2⟩)
    simp only [List.map_append, List.map_cons, List.map_nil]
    refine List.Nodup.append h (List.nodup_singleton _) ?_
    intro x hx hx'
    simp only [List.mem_singleton] at hx'
    subst hx'
    exact hnot hx

lemma runCreateSimulations_cons (sims : List SimRow) (r : SimRow) (rest : List SimRow) :
    runCreateSimulations sims (r :: rest) =
      runCreateSimulations
        (match createSimulation sims r with
         | Except.ok l => l
         | Except.error _ => sims)
        rest := rfl

lemma runCreateSimulations_nodup (rows : List SimRow) (sims : List SimRow)
    (h : (sims.map simKey).Nodup) :
    ((runCreateSimulations sims rows).map simKey).Nodup := by
  induction rows generalizing sims with
  | nil => exact h
  | cons r rest ih =>
    rw [runCreateSimulations_cons]
    rcases hc : createSimulation sims r with e | res
    · simpa [hc] using ih sims h
    · simpa [hc] using ih res (createSimulation_ok_nodup sims r h res hc)

/-- Claim C7: creating a Simulation for an (exploration_id, cluster_id)
pair that already has one fails with the uniqueness-constraint violation
(table constraint `uc_exploration_id_cluster_id`), and therefore the set of
(exploration_id, cluster_id) pairs over the simulations produced by any
sequence of create calls contains no duplicates. -/
theorem simulation_unique_per_cluster :
    (∀ (sims : List SimRow) (row : SimRow),
      (∃ t ∈ sims, t.exploration_id = row.exploration_id ∧ t.cluster_id = row.cluster_id) →
      createSimulation sims row = Except.error PersistenceError.uniqueConstraintViolation) ∧
    ∀ rows : List SimRow, ((runCreateSimulations [] rows).map simKey).Nodup := by
  constructor
  · intro sims row hdup
    unfold createSimulation
    simp only [List.any_eq_true, decide_eq_true_eq]
    rw [if_pos hdup]
  · intro rows
    exact runCreateSimulations_nodup rows [] (by simp)

/-- Claim C7 witness. -/
theorem simulation_unique_per_cluster_witness :
    createSimulation [⟨4, 2⟩] ⟨4, 2⟩ =
      Except.error PersistenceError.uniqueConstraintViolation :=
  simulation_unique_per_cluster.1 [⟨4, 2⟩] ⟨4, 2⟩ ⟨⟨4, 2⟩, by simp, rfl, rfl⟩

/-- Whether an exploration row is RUNNING, as a Bool predicate. -/
def isRunningRec (e : ExplorationRec) : Bool := e.status = ExplorationStatus.RUNNING

lemma countRunning_def (db : Store) :
    countRunning db = db.explorations.countP isRunningRec := rfl

lemma finalStatus_ne_running (sims : List SimulationStatus) :
    finalStatus sims ≠ ExplorationStatus.RUNNING := by
  unfold finalStatus
  split <;> simp

lemma countP_setStatus_le (l : List ExplorationRec) (i : Nat) (v : ExplorationStatus)
    (hv : v ≠ ExplorationStatus.RUNNING) :
    (l.map (fun e => if e.id = i then { e with status := v } else e)).countP isRunningRec ≤
      l.countP isRunningRec := by
  induction l with
  | nil => simp
  | cons e rest ih =>
    simp only [List.map_cons, List.countP_cons]
    have hle :
        (if isRunningRec (if e.id = i then { e with status := v } else e) = true then 1 else 0) ≤
          (if isRunningRec e = true then 1 else 0) := by
      by_cases h : e.id = i
      · have hfalse : isRunningRec { e with status := v } = false := by
          unfold isRunningRec
          simp [hv]
        simp [if_pos h, hfalse]
      · simp [if_neg h]
    omega

lemma countRunning_step (db : Store) (op : ExplorationOp) (h : countRunning db ≤ 1) :
    countRunning (applyExplorationOp db op) ≤ 1 := by
  cases op with
  | start n =>
    show countRunning (start_new_exploration db n).1 ≤ 1
    unfold start_new_exploration
    simp only [List.any_eq_true, decide_eq_true_eq]
    by_cases hr : ∃ e ∈ db.explorations, e.status = ExplorationStatus.RUNNING
    · rw [if_pos hr]
      exact h
    · rw [if_neg hr]
      have hzero : db.explorations.countP isRunningRec = 0 := by
        rw [List.countP_eq_zero]
        intro e he
        push_neg at hr
        simpa [isRunningRec] using hr e he
      show (db.explorations ++
          [({ id := n, status := ExplorationStatus.RUNNING } : ExplorationRec)]).countP
            isRunningRec ≤ 1
      rw [List.countP_append, hzero]
      simp [isRunningRec]
  | stop i =>
    calc countRunning (setExplorationStatus db i ExplorationStatus.STOPPED)
        ≤ countRunning db :=
          countP_setStatus_le db.explorations i ExplorationStatus.STOPPED (by simp)
      _ ≤ 1 := h
  | finalize i sims =>
    calc countRunning (setExplorationStatus db i (finalStatus sims))
        ≤ countRunning db :=
          countP_setStatus_le db.explorations i (finalStatus sims) (finalStatus_ne_running sims)
      _ ≤ 1 := h

lemma countRunning_runOps (ops : List ExplorationOp) (db : Store) (h : countRunning db ≤ 1) :
    countRunning (runExplorationOps db ops) ≤ 1 := by
  induction ops generalizing db with
  | nil => exact h
  | cons op rest ih => exact ih (applyExplorationOp db op) (countRunning_step db op h)

/-- Claim C3: over every sequence of operations starting from an empty
store, at most one Exploration is RUNNING at any instant, and a start call
made while some Exploration is RUNNING answers 409 Conflict, leaving the
store unchanged (no new Exploration record). -/
theorem single_running_exploration :
    (∀ ops : List ExplorationOp, countRunning (runExplorationOps emptyStore ops) ≤ 1) ∧
    ∀ (db : Store) (n : Nat),
      (∃ e ∈ db.explorations, e.status = ExplorationStatus.RUNNING) →
      start_new_exploration db n = (db, StartResult.conflict) := by
  constructor
  · intro ops
    exact countRunning_runOps ops emptyStore (by simp [countRunning, emptyStore])
  · intro db n hrun
    unfold start_new_exploration
    simp only [List.any_eq_true, decide_eq_true_eq]
    rw [if_pos hrun]

/-- Claim C3 witness. -/
theorem single_running_exploration_witness :
    countRunning
        (runExplorationOps emptyStore
          [ExplorationOp.start 0, ExplorationOp.stop 0, ExplorationOp.start 1]) ≤ 1 ∧
    start_new_exploration ⟨[⟨5, ExplorationStatus.RUNNING⟩], [], []⟩ 6 =
      (⟨[⟨5, ExplorationStatus.RUNNING⟩], [], []⟩, StartResult.conflict) :=
  ⟨single_running_exploration.1 [ExplorationOp.start 0, ExplorationOp.stop 0,
      ExplorationOp.start 1],
    single_running_exploration.2 ⟨[⟨5, ExplorationStatus.RUNNING⟩], [], []⟩ 6
      ⟨⟨5, ExplorationStatus.RUNNING⟩, by simp, rfl⟩⟩

/-- A store holding one finished historical exploration (id 0) together
with one of its clusters (id 7) and one of its simulation rows. -/
def historyStore : Store :=
  { explorations := [{ id := 0, status := ExplorationStatus.FINISHED }],
    clusters := [7],
    simulations := [{ exploration_id := 0, cluster_id := 3 }] }

/-- Claim C6 counterexample: starting a new exploration while a finished
(historical) exploration still has a Cluster and a Simulation row succeeds
and deletes both rows (api.py lines 262-264 issue unfiltered deletes on the
cluster and simulation tables), contradicting the claim that earlier
explorations' Cluster and Simulation records survive a start and that
Cluster rows are deleted only by a full exploration reset. -/
theorem start_deletes_historical_records :
    (start_new_exploration historyStore 1).2 = StartResult.started 1 ∧
    historyStore.clusters = [7] ∧
    (start_new_exploration historyStore 1).1.clusters = [] ∧
    historyStore.simulations = [{ exploration_id := 0, cluster_id := 3 }] ∧
    (start_new_exploration historyStore 1).1.simulations = [] := by
  refine ⟨?_, rfl, ?_, rfl, ?_⟩ <;> rfl

/-- Claim C6 as amended: a non-conflicting start deletes every Cluster and
every Simulation row — including those of earlier explorations — while the
Exploration rows themselves (and hence the historical explorations' own
records) are preserved, the new RUNNING exploration being appended. -/
theorem start_clears_clusters_and_simulations (db : Store) (n : Nat)
    (h : ¬∃ e ∈ db.explorations, e.status = ExplorationStatus.RUNNING) :
    (start_new_exploration db n).1.clusters = [] ∧
    (start_new_exploration db n).1.simulations = [] ∧
    (start_new_exploration db n).1.explorations =
      db.explorations ++ [{ id := n, status := ExplorationStatus.RUNNING }] := by
  unfold start_new_exploration
  simp only [List.any_eq_true, decide_eq_true_eq]
  rw [if_neg h]
  exact ⟨rfl, rfl, rfl⟩

/-- Claim C6 witness. -/
theorem start_clears_clusters_and_simulations_witness :
    (start_new_exploration historyStore 1).1.clusters = [] ∧
    (start_new_exploration historyStore 1).1.simulations = [] :=
  ⟨(start_clears_clusters_and_simulations historyStore 1 (by decide)).1,
    (start_clears_clusters_and_simulations historyStore 1 (by decide)).2.1⟩

lemma retry_request_reaches_response (sc : Nat) (d : Bool) (t : Nat)
    (rest : List NetOutcome) (n k : Nat) (hk : k < n) :
    retry_request n (List.replicate k NetOutcome.timeout ++ NetOutcome.response sc d t :: rest) =
      (some (sc, d, t), k + 1) := by
  induction n generalizing k with
  | zero => exact absurd hk (Nat.not_lt_zero k)
  | succ m ih =>
    cases k with
    | zero => simp [retry_request]
    | succ j =>
      have hj : j < m := Nat.lt_of_succ_lt_succ hk
      have hm : ¬m = 0 := by omega
      simp only [List.replicate_succ, List.cons_append, retry_request, hm, if_false,
        List.append_eq, ih j hj]

/-- Claim C8: when the external optimizer answers the submit with a
non-success HTTP status or an undecodable body, the gateway returns a
`GatewayError` immediately — the submission is not re-sent after that
response (the network-call count is exactly the leading transport timeouts
plus the one response), while transport-level timeout retries before the
response are allowed. -/
theorem gateway_error_without_submit_retry (k sc : Nat) (d : Bool) (t : Nat)
    (rest : List NetOutcome) (hk : k < 5) (hbad : sc ≠ 200 ∨ d = false) :
    ∃ e, send_input_to_optimizer
        (List.replicate k NetOutcome.timeout ++ NetOutcome.response sc d t :: rest) =
      (SubmitOutcome.gatewayError e, k + 1) := by
  unfold send_input_to_optimizer
  rw [retry_request_reaches_response sc d t rest 5 k hk]
  by_cases hsc : sc = 200
  · have hd : d = false := by
      rcases hbad with h | h
      · exact absurd hsc h
      · exact h
    subst hsc
    exact ⟨ErrorServiceOffgridPlanner.service_unavailable, by simp [hd]⟩
  · exact ⟨ErrorServiceOffgridPlanner.request_failed, by simp [hsc]⟩

/-- Claim C8 witness. -/
theorem gateway_error_without_submit_retry_witness :
    ∃ e, send_input_to_optimizer [NetOutcome.timeout, NetOutcome.response 500 true 0] =
      (SubmitOutcome.gatewayError e, 2) :=
  gateway_error_without_submit_retry 1 500 true 0 [] (by decide) (Or.inl (by decide))

lemma fillLoop_length (fetched : List (Nat × Bool)) (slots : List Slot) (i executed : Nat) :
    (fillLoop slots fetched i executed).1.length = slots.length := by
  induction fetched generalizing slots i executed with
  | nil => rfl
  | cons p rest ih =>
    rcases p with ⟨simId, ok⟩
    cases ok with
    | true =>
      show (fillLoop (slots.set i ⟨some simId, true, true⟩) rest (i + 1) executed).1.length =
        slots.length
      rw [ih, List.length_set]
    | false =>
      show (fillLoop slots rest (i + 1) (executed + 1)).1.length = slots.length
      rw [ih]

lemma fillLoop_executed (fetched : List (Nat × Bool)) (slots : List Slot) (i executed : Nat) :
    (fillLoop slots fetched i executed).2 =
      executed + fetched.countP (fun p => decide (p.2 = false)) := by
  induction fetched generalizing slots i executed with
  | nil => simp [fillLoop]
  | cons p rest ih =>
    rcases p with ⟨simId, ok⟩
    cases ok with
    | true =>
      show (fillLoop (slots.set i ⟨some simId, true, true⟩) rest (i + 1) executed).2 = _
      rw [ih]
      simp [List.countP_cons]
    | false =>
      show (fillLoop slots rest (i + 1) (executed + 1)).2 = _
      rw [ih]
      simp [List.countP_cons]
      omega

/-- Claim C5: the scheduler's slot array keeps its fixed size `NUM_SLOTS`
(= 3) across the startup fill and the bulk refill (both instances of
`fillLoop`) and across the opportunistic single-slot refill, so at any
point at most `NUM_SLOTS` simulations are simultaneously held RUNNING with
an unresolved grid-or-supply poll handle in the slot array. -/
theorem scheduler_bounded_concurrency (slots : List Slot) (fetched : List (Nat × Bool))
    (i executed total j simId : Nat) (lb : Bool) (h : slots.length = NUM_SLOTS) :
    runningWithHandles (fillLoop slots fetched i executed).1 ≤ NUM_SLOTS ∧
    (fillLoop slots fetched i executed).1.length = NUM_SLOTS ∧
    runningWithHandles (refillOneSlot slots j simId) ≤ NUM_SLOTS ∧
    (refillOneSlot slots j simId).length = NUM_SLOTS ∧
    runningWithHandles (bulkRefill slots executed total fetched lb).1 ≤ NUM_SLOTS := by
  have hfill : (fillLoop slots fetched i executed).1.length = NUM_SLOTS := by
    rw [fillLoop_length]
    exact h
  have hone : (refillOneSlot slots j simId).length = NUM_SLOTS := by
    unfold refillOneSlot
    rw [List.length_set]
    exact h
  have hbulk : (bulkRefill slots executed total fetched lb).1.length = NUM_SLOTS := by
    unfold bulkRefill
    rw [fillLoop_length]
    exact h
  refine ⟨?_, hfill, ?_, hone, ?_⟩
  · calc runningWithHandles (fillLoop slots fetched i executed).1
        ≤ (fillLoop slots fetched i executed).1.length := List.countP_le_length _
      _ = NUM_SLOTS := hfill
  · calc runningWithHandles (refillOneSlot slots j simId)
        ≤ (refillOneSlot slots j simId).length := List.countP_le_length _
      _ = NUM_SLOTS := hone
  · calc runningWithHandles (bulkRefill slots executed total fetched lb).1
        ≤ (bulkRefill slots executed total fetched lb).1.length := List.countP_le_length _
      _ = NUM_SLOTS := hbulk

/-- Claim C5 witness. -/
theorem scheduler_bounded_concurrency_witness :
    runningWithHandles
        (fillLoop (List.replicate 3 emptySlot) [(1, true), (2, true), (3, true)] 0 0).1 ≤
      NUM_SLOTS :=
  (scheduler_bounded_concurrency (List.replicate 3 emptySlot)
    [(1, true), (2, true), (3, true)] 0 0 9 0 4 false (by decide)).1

/-- Claim C9 counterexample: with `minigrids_found = 5`, no simulation
executed yet, all five simulations created and PENDING and all three slots
empty, the bulk refill fetches 3 simulations (the query limit
`min NUM_SLOTS (total - executed)`) and all three submits succeed; the
number of simulations still PENDING afterwards is `5 - 3 = 2 ≤ NUM_SLOTS`,
yet the code leaves `last_bucket` unset because its condition is
`minigrids_found - executed_simulations ≤ NUM_SLOTS`, i.e. `5 ≤ 3`. -/
theorem last_bucket_ignores_pending_count :
    (bulkRefill (List.replicate 3 emptySlot) 0 5 [(1, true), (2, true), (3, true)] false).2.2 =
      false ∧
    5 - (List.length [(1, true), (2, true), (3, true)]) ≤ NUM_SLOTS := by
  refine ⟨rfl, by decide⟩

/-- Claim C9 as amended: after a bulk refill entered with the flag unset,
the "last batch" flag is set exactly when `minigrids_found` minus the
updated executed-count is at most `NUM_SLOTS` — the count of
not-yet-executed simulations (including the ones just submitted into
slots), not the count of simulations still PENDING; the updated
executed-count is the previous one plus the fetched simulations whose
submit failed. -/
theorem last_bucket_iff_unexecuted_le_slots (slots : List Slot) (executed total : Nat)
    (fetched : List (Nat × Bool)) :
    ((bulkRefill slots executed total fetched false).2.2 = true ↔
      total - (bulkRefill slots executed total fetched false).2.1 ≤ NUM_SLOTS) ∧
    (bulkRefill slots executed total fetched false).2.1 =
      executed + fetched.countP (fun p => decide (p.2 = false)) := by
  constructor
  · have h2 : (bulkRefill slots executed total fetched false).2.2 =
        (if total - (fillLoop slots fetched 0 executed).2 ≤ NUM_SLOTS then true else false) := rfl
    have h1 : (bulkRefill slots executed total fetched false).2.1 =
        (fillLoop slots fetched 0 executed).2 := rfl
    rw [h1, h2]
    split
    · next hle => simpa using hle
    · next hgt => simpa using hgt
  · exact fillLoop_executed fetched slots 0 executed

/-- Claim C9 witness. -/
theorem last_bucket_iff_unexecuted_le_slots_witness :
    (bulkRefill (List.replicate 3 emptySlot) 0 3 [(1, true)] false).2.2 = true :=
  (last_bucket_iff_unexecuted_le_slots (List.replicate 3 emptySlot) 0 3 [(1, true)]).1.mpr
    (by decide)

/-- Claim C4 counterexample: in the scheduler's polling pass, an ERROR on
the grid poll marks the simulation ERROR but clears only the grid handle —
the supply handle stays in the slot (first conjunct, the slot is not even
emptied), and on a later pass a DONE supply poll still persists
supply_results for that already-ERROR simulation (second conjunct), so the
claim that an ERROR poll clears both handles and prevents any further
result write is false. -/
theorem error_poll_does_not_clear_both :
    pollOccupiedSlot ⟨SimulationStatus.RUNNING, none, none⟩ true true PollResult.error
        PollResult.pending =
      ⟨⟨SimulationStatus.ERROR, none, none⟩, false, true, false⟩ ∧
    pollOccupiedSlot ⟨SimulationStatus.ERROR, none, none⟩ false true PollResult.pending
        (PollResult.done 7) =
      ⟨⟨SimulationStatus.ERROR, none, some 7⟩, false, false, true⟩ := by
  exact ⟨by decide, by decide⟩

lemma pollSlot_grid_done (sim : SimRecord) (hs : Bool) (sp : PollResult) (r : Nat) :
    (pollOccupiedSlot sim true hs (PollResult.done r) sp).sim.grid_results = some r ∧
    (pollOccupiedSlot sim true hs (PollResult.done r) sp).hasGrid = false := by
  rcases sim with ⟨st, gr, sr⟩
  cases st <;> cases hs <;> cases sp <;> simp [pollOccupiedSlot]

lemma pollSlot_supply_done (sim : SimRecord) (hg : Bool) (gp : PollResult) (r : Nat) :
    (pollOccupiedSlot sim hg true gp (PollResult.done r)).sim.supply_results = some r ∧
    (pollOccupiedSlot sim hg true gp (PollResult.done r)).hasSupply = false := by
  rcases sim with ⟨st, gr, sr⟩
  cases st <;> cases hg <;> cases gp <;> simp [pollOccupiedSlot]

lemma pollSlot_grid_error (sim : SimRecord) (hs : Bool) (sp : PollResult) :
    (pollOccupiedSlot sim true hs PollResult.error sp).sim.status = SimulationStatus.ERROR ∧
    (pollOccupiedSlot sim true hs PollResult.error sp).hasGrid = false := by
  rcases sim with ⟨st, gr, sr⟩
  cases st <;> cases hs <;> cases sp <;> simp [pollOccupiedSlot]

lemma pollSlot_supply_error (sim : SimRecord) (hg : Bool) (gp : PollResult) :
    (pollOccupiedSlot sim hg true gp PollResult.error).sim.status = SimulationStatus.ERROR ∧
    (pollOccupiedSlot sim hg true gp PollResult.error).hasSupply = false := by
  rcases sim with ⟨st, gr, sr⟩
  cases st <;> cases hg <;> cases gp <;> simp [pollOccupiedSlot]

lemma pollSlot_emptied_iff (sim : SimRecord) (hg hs : Bool) (gp sp : PollResult) :
    ((pollOccupiedSlot sim hg hs gp sp).emptied = true ↔
      (pollOccupiedSlot sim hg hs gp sp).hasGrid = false ∧
      (pollOccupiedSlot sim hg hs gp sp).hasSupply = false) := by
  rcases sim with ⟨st, gr, sr⟩
  cases st <;> cases hg <;> cases hs <;> cases gp <;> cases sp <;> simp [pollOccupiedSlot]

lemma pollSlot_finished (sim : SimRecord) (hg hs : Bool) (gp sp : PollResult)
    (hrun : sim.status = SimulationStatus.RUNNING)
    (hgp : ¬(hg = true ∧ gp = PollResult.error))
    (hsp : ¬(hs = true ∧ sp = PollResult.error))
    (hemp : (pollOccupiedSlot sim hg hs gp sp).emptied = true) :
    (pollOccupiedSlot sim hg hs gp sp).sim.status = SimulationStatus.FINISHED := by
  rcases sim with ⟨st, gr, sr⟩
  cases st <;> cases hg <;> cases hs <;> cases gp <;> cases sp <;>
    simp_all [pollOccupiedSlot]

lemma pollSlot_error_stays (sim : SimRecord) (hg hs : Bool) (gp sp : PollResult)
    (herr : sim.status = SimulationStatus.ERROR) :
    (pollOccupiedSlot sim hg hs gp sp).sim.status = SimulationStatus.ERROR := by
  rcases sim with ⟨st, gr, sr⟩
  cases st <;> cases hg <;> cases hs <;> cases gp <;> cases sp <;>
    simp_all [pollOccupiedSlot]

/-- Claim C4 as amended: in each polling pass over an occupied slot, a DONE
poll on a present grid (resp. supply) handle persists grid_results (resp.
supply_results) and clears that handle; an ERROR poll on a present handle
marks the simulation ERROR and clears only that handle — the other handle,
if present and still pending, survives the pass (and its later DONE still
persists its result field, covered by the DONE conjuncts); the slot is
emptied exactly when both handles end the pass cleared; a simulation still
RUNNING whose pass saw no ERROR poll is marked FINISHED when the slot
empties, and a simulation already marked ERROR is never promoted away from
ERROR. -/
theorem poll_slot_behavior (sim : SimRecord) (hg hs : Bool) (gp sp : PollResult) (r : Nat) :
    ((pollOccupiedSlot sim true hs (PollResult.done r) sp).sim.grid_results = some r ∧
      (pollOccupiedSlot sim true hs (PollResult.done r) sp).hasGrid = false) ∧
    ((pollOccupiedSlot sim hg true gp (PollResult.done r)).sim.supply_results = some r ∧
      (pollOccupiedSlot sim hg true gp (PollResult.done r)).hasSupply = false) ∧
    ((pollOccupiedSlot sim true hs PollResult.error sp).sim.status = SimulationStatus.ERROR ∧
      (pollOccupiedSlot sim true hs PollResult.error sp).hasGrid = false) ∧
    ((pollOccupiedSlot sim true true PollResult.error PollResult.pending).hasSupply = true ∧
      (pollOccupiedSlot sim true true PollResult.error PollResult.pending).emptied = false) ∧
    ((pollOccupiedSlot sim hg true gp PollResult.error).sim.status = SimulationStatus.ERROR ∧
      (pollOccupiedSlot sim hg true gp PollResult.error).hasSupply = false) ∧
    ((pollOccupiedSlot sim hg hs gp sp).emptied = true ↔
      (pollOccupiedSlot sim hg hs gp sp).hasGrid = false ∧
      (pollOccupiedSlot sim hg hs gp sp).hasSupply = false) ∧
    (sim.status = SimulationStatus.RUNNING → ¬(hg = true ∧ gp = PollResult.error) →
      ¬(hs = true ∧ sp = PollResult.error) →
      (pollOccupiedSlot sim hg hs gp sp).emptied = true →
      (pollOccupiedSlot sim hg hs gp sp).sim.status = SimulationStatus.FINISHED) ∧
    (sim.status = SimulationStatus.ERROR →
      (pollOccupiedSlot sim hg hs gp sp).sim.status = SimulationStatus.ERROR) := by
  refine ⟨pollSlot_grid_done sim hs sp r, pollSlot_supply_done sim hg gp r,
    pollSlot_grid_error sim hs sp, ?_, pollSlot_supply_error sim hg gp,
    pollSlot_emptied_iff sim hg hs gp sp,
    fun hrun hgp hsp hemp => pollSlot_finished sim hg hs gp sp hrun hgp hsp hemp,
    fun herr => pollSlot_error_stays sim hg hs gp sp herr⟩
  rcases sim with ⟨st, gr, sr⟩
  cases st <;> simp [pollOccupiedSlot]

/-- Claim C4 witness. -/
theorem poll_slot_behavior_witness :
    (pollOccupiedSlot ⟨SimulationStatus.RUNNING, none, none⟩ true true PollResult.error
        (PollResult.done 7)).sim.supply_results = some 7 :=
  ((poll_slot_behavior ⟨SimulationStatus.RUNNING, none, none⟩ true true PollResult.error
      (PollResult.done 7) 7).2.1).1
